import Mathlib

/-!
Verification development for the indoor-mapper utility trio:
iBeacon advertisement decoding (beaconUtils), RSSI-to-distance
estimation with scalar Kalman smoothing (kalmanFilter, beaconUtils),
and 2-D trilateration with room clamping (trilateration), plus the
bounded position history kept by the scanning hook (useBLEScanner).

Machine numbers of the source (JS doubles) are modelled as real
numbers; byte buffers (DataView over ArrayBuffer) as lists of
naturals read modulo 256.
-/

open scoped Classical

/-! ## Data model -/

structure Beacon where
  id : ℤ
  x : ℝ
  y : ℝ
  name : String

structure Position where
  x : ℝ
  y : ℝ

structure BeaconInfo where
  uuid : String
  major : ℕ
  minor : ℕ
  rssi : ℤ
  txPower : ℤ
deriving DecidableEq, Repr

/-! ## FrameDecoder: byte-buffer primitives

A DataView read `getUint8` always yields a value below 256; the
buffer is a list of naturals and every read is taken modulo 256. -/

def getU8 (buf : List ℕ) (i : ℕ) : ℕ := buf.getD i 0 % 256

/-- DataView.getUint16 with an endianness flag. -/
def getU16 (buf : List ℕ) (i : ℕ) (littleEndian : Bool) : ℕ :=
  if littleEndian then getU8 buf i + 256 * getU8 buf (i + 1)
  else 256 * getU8 buf i + getU8 buf (i + 1)

/-- DataView.getInt8: two-complement signed byte. -/
def getI8 (buf : List ℕ) (i : ℕ) : ℤ :=
  let b := getU8 buf i
  if 128 ≤ b then (b : ℤ) - 256 else (b : ℤ)

/-- One byte rendered as two lowercase hex digits, as in
toString(16).padStart(2, the zero digit). -/
def hexByte (b : ℕ) : String := ⟨[Nat.digitChar (b / 16), Nat.digitChar (b % 16)]⟩

/-- The 16 bytes starting at `off`, serialized as the hyphenated
8-4-4-4-12 hex string the source builds from its uuidBytes slices. -/
def uuidStrAt (buf : List ℕ) (off : ℕ) : String :=
  let hs := (List.range 16).map (fun i => hexByte (getU8 buf (off + i)))
  String.intercalate "-"
    [String.join (hs.take 4),
     String.join ((hs.drop 4).take 2),
     String.join ((hs.drop 6).take 2),
     String.join ((hs.drop 8).take 2),
     String.join (hs.drop 10)]

/-- Canonical serialization of a 16-byte identity. -/
def canonUuid (u : List ℕ) : String := uuidStrAt u 0

/-! ## FrameDecoder: parseIBeaconData (beaconUtils.ts, revision with
the format-candidate list and the custom fallback scan) -/

structure IBeaconFormat where
  name : String
  companyIdOffset : ℕ
  companyId : ℕ
  typeOffset : ℕ
  typeVal : ℕ
  lengthOffset : ℕ
  lengthVal : ℕ
  uuidOffset : ℕ

def iBeaconFormats : List IBeaconFormat :=
  [⟨"Standard Apple iBeacon", 0, 0x004C, 2, 0x02, 3, 0x15, 4⟩,
   ⟨"Big Endian Company ID", 0, 0x4C00, 2, 0x02, 3, 0x15, 4⟩,
   ⟨"With 2-byte prefix", 2, 0x004C, 4, 0x02, 5, 0x15, 6⟩]

/-- One iteration of the format-candidate loop: structural checks
(buffer long enough, company id in either endianness, type and
length markers), then field extraction. -/
def tryFormat (buf : List ℕ) (rssi : ℤ) (f : IBeaconFormat) : Option BeaconInfo :=
  if buf.length < f.uuidOffset + 21 then none
  else if getU16 buf f.companyIdOffset true ≠ f.companyId ∧
          getU16 buf f.companyIdOffset false ≠ f.companyId then none
  else if getU8 buf f.typeOffset ≠ f.typeVal ∨ getU8 buf f.lengthOffset ≠ f.lengthVal then none
  else some
    { uuid := uuidStrAt buf f.uuidOffset
      major := getU16 buf (f.uuidOffset + 16) false
      minor := getU16 buf (f.uuidOffset + 18) false
      rssi := rssi
      txPower := getI8 buf (f.uuidOffset + 20) }

/-- JS String.prototype.includes on char lists. -/
def hasSubList (pat : List Char) : List Char → Bool
  | [] => pat.isEmpty
  | c :: t => pat.isPrefixOf (c :: t) || hasSubList pat t

def strIncl (s pat : String) : Bool := hasSubList pat.data s.data

def lowerStr (s : String) : String := ⟨s.data.map Char.toLower⟩

/-- The custom fallback: scan every offset admitting a 16-byte window
plus 5 field bytes, and accept the first window whose serialized
identity contains one of the two configured signatures. -/
def fallbackScan (buf : List ℕ) (rssi : ℤ) : Option BeaconInfo :=
  if 21 ≤ buf.length then
    (List.range (buf.length - 21 + 1)).findSome? (fun off =>
      let uuid := uuidStrAt buf off
      if strIncl (lowerStr uuid) "ab907856" || strIncl (lowerStr uuid) "3412" then
        some
          { uuid := uuid
            major := getU16 buf (off + 16) false
            minor := getU16 buf (off + 18) false
            rssi := rssi
            txPower := getI8 buf (off + 20) }
      else none)
  else none

/-- parseIBeaconData: reject buffers below 25 bytes, try the format
candidates in order, then fall back to the byte-pattern scan. -/
def parseIBeaconData (buf : List ℕ) (rssi : ℤ) : Option BeaconInfo :=
  if buf.length < 25 then none
  else
    match iBeaconFormats.findSome? (tryFormat buf rssi) with
    | some info => some info
    | none => fallbackScan buf rssi

/-! ## Buffer constructions for the three byte layouts -/

/-- Standard layout: company id 0x004C little-endian, type 0x02,
length 0x15, then identity, major, minor (big-endian), tx power. -/
def buildStd (u : List ℕ) (major minor tx : ℕ) : List ℕ :=
  [0x4C, 0x00, 0x02, 0x15] ++ u ++ [major / 256, major % 256, minor / 256, minor % 256, tx]

/-- The 2-byte-prefix variant: all offsets shifted by +2. -/
def buildPre2 (p0 p1 : ℕ) (u : List ℕ) (major minor tx : ℕ) : List ℕ :=
  [p0, p1, 0x4C, 0x00, 0x02, 0x15] ++ u ++
    [major / 256, major % 256, minor / 256, minor % 256, tx]

/-- The headerless variant: the 16-byte identity starts at offset 0,
followed by major, minor, tx power (21 bytes in total). -/
def buildHeadless (u : List ℕ) (major minor tx : ℕ) : List ℕ :=
  u ++ [major / 256, major % 256, minor / 256, minor % 256, tx]

/-- A signed tx-power byte as the decoder reports it. -/
def int8OfByte (t : ℕ) : ℤ := if 128 ≤ t then (t : ℤ) - 256 else (t : ℤ)

/-! ## DistanceEstimator: rssiToDistance (beaconUtils.ts, revision
with the 0.1 m - 50 m bounds) -/

noncomputable def rssiToDistance (rssi : ℝ) (txPower : ℝ := -59) : ℝ :=
  if rssi = 0 then -1.0
  else
    let ratio := (txPower - rssi) / 20.0
    let distance := (10 : ℝ) ^ ratio
    max 0.1 (min 50 distance)

/-! ## DistanceEstimator: scalar Kalman filter (kalmanFilter.ts) -/

structure KalmanFilter where
  Q : ℝ
  R : ℝ
  P : ℝ
  K : ℝ
  X : ℝ

/-- The constructor: noise parameters and initial estimate, with
P = 1.0 and K = 0. -/
def KalmanFilter.init (processNoise : ℝ := 0.0001) (measurementNoise : ℝ := 0.01)
    (estimation : ℝ := 0) : KalmanFilter :=
  { Q := processNoise, R := measurementNoise, P := 1.0, K := 0, X := estimation }

/-- One filter step: prediction update then measurement update. -/
noncomputable def KalmanFilter.filter (kf : KalmanFilter) (measurement : ℝ) : KalmanFilter :=
  let P1 := kf.P + kf.Q
  let K1 := P1 / (P1 + kf.R)
  let X1 := kf.X + K1 * (measurement - kf.X)
  let P2 := (1 - K1) * P1
  { kf with P := P2, K := K1, X := X1 }

/-- The state after feeding the constant measurement `c` into a
freshly constructed filter `n` times. -/
noncomputable def kfIter (c : ℝ) : ℕ → KalmanFilter
  | 0 => KalmanFilter.init
  | n + 1 => (kfIter c n).filter c

/-! ## PositionSolver: calculatePosition (trilateration.ts, first
revision). The source also builds a name-keyed beaconMap from the
beacons argument, but never reads it afterwards; the solve uses the
hardcoded reference points (0,0), (5,0), (0,5) and the distances
keyed 1001, 1002, 1003. A missing key and a distance of 0 are both
falsy in the guard. -/

noncomputable def calculatePosition (beacons : List Beacon)
    (beaconDistances : ℤ → Option ℝ) (currentPosition : Position) : Position :=
  match beaconDistances 1001, beaconDistances 1002, beaconDistances 1003 with
  | some dist1, some dist2, some dist3 =>
    if dist1 = 0 ∨ dist2 = 0 ∨ dist3 = 0 then currentPosition
    else
      let x1 : ℝ := 0; let y1 : ℝ := 0; let r1 := dist1
      let x2 : ℝ := 5; let y2 : ℝ := 0; let r2 := dist2
      let x3 : ℝ := 0; let y3 : ℝ := 5; let r3 := dist3
      let A := 2 * (x2 - x1)
      let B := 2 * (y2 - y1)
      let C := r1 ^ 2 - r2 ^ 2 - x1 ^ 2 + x2 ^ 2 - y1 ^ 2 + y2 ^ 2
      let D := 2 * (x3 - x2)
      let E := 2 * (y3 - y2)
      let F := r2 ^ 2 - r3 ^ 2 - x2 ^ 2 + x3 ^ 2 - y2 ^ 2 + y3 ^ 2
      let denominator := A * E - B * D
      if |denominator| < 0.001 then currentPosition
      else
        let x := (C * E - F * B) / denominator
        let y := (A * F - D * C) / denominator
        { x := max 0 (min 5 x), y := max 0 (min 5 y) }
  | _, _, _ => currentPosition

/-! ## Position history updates -/

/-- JS arr.slice(-k): the last min(k, length) elements. -/
def lastN (k : ℕ) (l : List Position) : List Position := l.drop (l.length - k)

/-- The history update in useBLEScanner.ts: keep the last 50 previous
entries and append the new position. -/
def updateHistory (prev : List Position) (p : Position) : List Position :=
  lastN 50 prev ++ [p]

/-- The history update in the 1 Hz revision of the hook kept inside
trilateration.ts: keep the last 49 previous entries and append. -/
def updateHistory1Hz (prev : List Position) (p : Position) : List Position :=
  lastN 49 prev ++ [p]

/-- The history after `n` updates starting from the empty list. -/
noncomputable def histAfter : ℕ → List Position
  | 0 => []
  | n + 1 => updateHistory (histAfter n) ⟨0, 0⟩

/-! ## Helper lemmas -/

/-- Characterization of a successful solve: with all three distances
present and nonzero, the hardcoded reference geometry gives
denominator 100, so the degenerate branch is never taken and the
result is the clamped closed-form solution. -/
lemma calculatePosition_eq (bs : List Beacon) (bd : ℤ → Option ℝ) (cp : Position)
    (d1 d2 d3 : ℝ) (h1 : bd 1001 = some d1) (h2 : bd 1002 = some d2)
    (h3 : bd 1003 = some d3) (hd1 : d1 ≠ 0) (hd2 : d2 ≠ 0) (hd3 : d3 ≠ 0) :
    calculatePosition bs bd cp =
      { x := max 0 (min 5 ((d1 ^ 2 - d2 ^ 2 + 25) / 10)),
        y := max 0 (min 5 ((d1 ^ 2 - d3 ^ 2 + 25) / 10)) } := by
  unfold calculatePosition
  rw [h1, h2, h3]
  simp only
  rw [if_neg (by push_neg; exact ⟨hd1, hd2, hd3⟩)]
  rw [if_neg (by rw [not_lt, le_abs]; left; norm_num)]
  rw [Position.mk.injEq]
  constructor <;> · congr 1; ring

lemma calculatePosition_zero (bs : List Beacon) (bd : ℤ → Option ℝ) (cp : Position)
    (h : bd 1001 = some 0 ∨ bd 1002 = some 0 ∨ bd 1003 = some 0) :
    calculatePosition bs bd cp = cp := by
  unfold calculatePosition
  rcases h with h | h | h
  · rw [h]
    rcases hb : bd 1002 with _ | b <;> rcases hc : bd 1003 with _ | c <;>
      simp
  · rw [h]
    rcases ha : bd 1001 with _ | a <;> rcases hc : bd 1003 with _ | c <;>
      simp
  · rw [h]
    rcases ha : bd 1001 with _ | a <;> rcases hb : bd 1002 with _ | b <;>
      simp

/-- Three present, nonzero (negative) distances. -/
noncomputable def bdNeg : ℤ → Option ℝ :=
  fun k => if k = 1001 ∨ k = 1002 ∨ k = 1003 then some (-1) else none

/-- Three present distances, all equal to 1. -/
noncomputable def bdOnes : ℤ → Option ℝ :=
  fun k => if k = 1001 ∨ k = 1002 ∨ k = 1003 then some 1 else none

/-- Three present distances, all equal to 0. -/
noncomputable def bdZeros : ℤ → Option ℝ :=
  fun k => if k = 1001 ∨ k = 1002 ∨ k = 1003 then some 0 else none

/-- The analytically exact distances from the true point (2,1) to the
reference points (0,0), (5,0), (0,5). -/
noncomputable def bdExact : ℤ → Option ℝ :=
  fun k =>
    if k = 1001 then some (Real.sqrt 5)
    else if k = 1002 then some (Real.sqrt 10)
    else if k = 1003 then some (Real.sqrt 20)
    else none

/-! ## Claims about the position solver -/

/-- C1: with reference points (0,0), (5,0), (0,5) and distances
sqrt 5, sqrt 10, sqrt 20 measured from the true point (2,1), the
linearized solve of calculatePosition returns (2,1), in particular
within tolerance 1e-6 in each coordinate. -/
theorem C1_trilateration_exact :
    |(calculatePosition [] bdExact ⟨2.5, 2.5⟩).x - 2| ≤ 1e-6 ∧
    |(calculatePosition [] bdExact ⟨2.5, 2.5⟩).y - 1| ≤ 1e-6 := by
  have h5 : Real.sqrt 5 ≠ 0 := by positivity
  have h10 : Real.sqrt 10 ≠ 0 := by positivity
  have h20 : Real.sqrt 20 ≠ 0 := by positivity
  rw [calculatePosition_eq [] bdExact ⟨2.5, 2.5⟩ (Real.sqrt 5) (Real.sqrt 10) (Real.sqrt 20)
      rfl rfl rfl h5 h10 h20]
  rw [Real.sq_sqrt (by norm_num), Real.sq_sqrt (by norm_num), Real.sq_sqrt (by norm_num)]
  norm_num

/-- C2 counterexample: three collinear reference beacons at (0,0),
(1,0), (2,0) with distances all 1 do not make calculatePosition
return the previous position: the passed beacon coordinates are
ignored and the hardcoded geometry is solved instead. -/
theorem C2_counterexample :
    calculatePosition
      [⟨1001, 0, 0, "Corner NW"⟩, ⟨1002, 1, 0, "Corner NE"⟩, ⟨1003, 2, 0, "Corner SW"⟩]
      bdOnes ⟨0, 0⟩ ≠ (⟨0, 0⟩ : Position) := by
  rw [calculatePosition_eq _ bdOnes ⟨0, 0⟩ 1 1 1 rfl rfl rfl one_ne_zero one_ne_zero
      one_ne_zero]
  rw [ne_eq, Position.mk.injEq]
  norm_num

/-- C2 amended: calculatePosition ignores the beacons argument
entirely and solves against the hardcoded reference points (0,0),
(5,0), (0,5), whose denominator is 100, so with all three distances
present and nonzero the degeneracy fallback to previousPosition is
never taken, regardless of how collinear the passed beacons are. -/
theorem C2_amended_no_degenerate_fallback :
    (∀ (bs bs' : List Beacon) (bd : ℤ → Option ℝ) (cp : Position),
        calculatePosition bs bd cp = calculatePosition bs' bd cp) ∧
    (∀ (bs : List Beacon) (bd : ℤ → Option ℝ) (cp : Position) (d1 d2 d3 : ℝ),
        bd 1001 = some d1 → bd 1002 = some d2 → bd 1003 = some d3 →
        d1 ≠ 0 → d2 ≠ 0 → d3 ≠ 0 →
        calculatePosition bs bd cp =
          { x := max 0 (min 5 ((d1 ^ 2 - d2 ^ 2 + 25) / 10)),
            y := max 0 (min 5 ((d1 ^ 2 - d3 ^ 2 + 25) / 10)) }) :=
  ⟨fun _ _ _ _ => rfl, fun bs bd cp d1 d2 d3 h1 h2 h3 hd1 hd2 hd3 =>
    calculatePosition_eq bs bd cp d1 d2 d3 h1 h2 h3 hd1 hd2 hd3⟩

/-- C2 witness: concrete instantiation of the amended statement. -/
theorem C2_amended_witness :
    calculatePosition [] bdOnes ⟨1, 1⟩ =
      { x := max 0 (min 5 ((1 ^ 2 - 1 ^ 2 + 25) / 10)),
        y := max 0 (min 5 ((1 ^ 2 - 1 ^ 2 + 25) / 10)) } :=
  C2_amended_no_degenerate_fallback.2 [] bdOnes ⟨1, 1⟩ 1 1 1 rfl rfl rfl one_ne_zero
    one_ne_zero one_ne_zero

/-- C8: every position produced by a successful solve is clamped into
the room bounds, which the source hardcodes as 0..5 in each
coordinate. -/
theorem C8_solved_position_clamped (bs : List Beacon) (bd : ℤ → Option ℝ) (cp : Position)
    (d1 d2 d3 : ℝ) (h1 : bd 1001 = some d1) (h2 : bd 1002 = some d2)
    (h3 : bd 1003 = some d3) (hd1 : d1 ≠ 0) (hd2 : d2 ≠ 0) (hd3 : d3 ≠ 0) :
    0 ≤ (calculatePosition bs bd cp).x ∧ (calculatePosition bs bd cp).x ≤ 5 ∧
    0 ≤ (calculatePosition bs bd cp).y ∧ (calculatePosition bs bd cp).y ≤ 5 := by
  rw [calculatePosition_eq bs bd cp d1 d2 d3 h1 h2 h3 hd1 hd2 hd3]
  refine ⟨le_max_left _ _, max_le (by norm_num) (min_le_left _ _),
    le_max_left _ _, max_le (by norm_num) (min_le_left _ _)⟩

/-- C8 witness: the clamping bounds hold at a concrete solve. -/
theorem C8_witness :
    0 ≤ (calculatePosition [] bdOnes ⟨0, 0⟩).x ∧ (calculatePosition [] bdOnes ⟨0, 0⟩).x ≤ 5 ∧
    0 ≤ (calculatePosition [] bdOnes ⟨0, 0⟩).y ∧ (calculatePosition [] bdOnes ⟨0, 0⟩).y ≤ 5 :=
  C8_solved_position_clamped [] bdOnes ⟨0, 0⟩ 1 1 1 rfl rfl rfl one_ne_zero one_ne_zero
    one_ne_zero

/-- C10: a distance of exactly 0 in any of the three slots is falsy
and treated as missing data, returning the previous position
unchanged, while negative distances such as the -1.0 sentinel pass
the check and are fed to the trilateration solve: with all three
distances -1.0 the solver returns (2.5, 2.5), not the previous
position (0,0). -/
theorem C10_zero_falsy_negative_used :
    (∀ (bs : List Beacon) (bd : ℤ → Option ℝ) (cp : Position),
        (bd 1001 = some 0 ∨ bd 1002 = some 0 ∨ bd 1003 = some 0) →
        calculatePosition bs bd cp = cp) ∧
    (calculatePosition [] bdNeg ⟨0, 0⟩ = (⟨5 / 2, 5 / 2⟩ : Position) ∧
      (⟨5 / 2, 5 / 2⟩ : Position) ≠ (⟨0, 0⟩ : Position)) := by
  refine ⟨fun bs bd cp h => calculatePosition_zero bs bd cp h, ?_, ?_⟩
  · rw [calculatePosition_eq [] bdNeg ⟨0, 0⟩ (-1) (-1) (-1) rfl rfl rfl (by norm_num)
        (by norm_num) (by norm_num)]
    rw [Position.mk.injEq]
    norm_num
  · rw [ne_eq, Position.mk.injEq]
    norm_num

/-- C10 witness: a concrete zero-distance map returns the previous
position unchanged. -/
theorem C10_witness :
    calculatePosition [] bdZeros ⟨1, 2⟩ = (⟨1, 2⟩ : Position) :=
  C10_zero_falsy_negative_used.1 [] bdZeros ⟨1, 2⟩ (Or.inl rfl)

/-! ## Claims about distance estimation -/

/-- C6: a raw signal reading of exactly 0 returns the sentinel
distance -1.0 for every txPower; the embedding is a total function,
so no exception is possible. -/
theorem C6_zero_rssi_sentinel (txPower : ℝ) : rssiToDistance 0 txPower = -1.0 := by
  simp [rssiToDistance]

/-- C4 counterexample: at rawSignal = 0 the code returns the sentinel
-1.0, which lies outside the clamp range [0.1, 50] of the code (and
outside the recommended [0.3, 15] as well), so the output is not
always within the bounds. -/
theorem C4_counterexample :
    rssiToDistance 0 (-59) = -1.0 ∧
    rssiToDistance 0 (-59) ∉ Set.Icc (0.1 : ℝ) 50 ∧
    rssiToDistance 0 (-59) ∉ Set.Icc (0.3 : ℝ) 15 := by
  refine ⟨by simp [rssiToDistance], ?_, ?_⟩ <;>
    simp [rssiToDistance, Set.mem_Icc] <;> norm_num

/-- C4 amended: for every nonzero raw signal and every txPower the
result lies in the clamp range of the code, [0.1, 50] inclusive;
rawSignal = 0 instead yields the sentinel -1.0. -/
theorem C4_amended_distance_bounds (rssi txPower : ℝ) (h : rssi ≠ 0) :
    rssiToDistance rssi txPower ∈ Set.Icc (0.1 : ℝ) 50 := by
  rw [rssiToDistance, if_neg h]
  exact Set.mem_Icc.2 ⟨le_max_left _ _, max_le (by norm_num) (min_le_left _ _)⟩

/-- C4 witness: the bounds hold at the extreme reading -150. -/
theorem C4_witness :
    (-150 : ℝ) ≠ 0 ∧ rssiToDistance (-150) (-59) ∈ Set.Icc (0.1 : ℝ) 50 :=
  ⟨by norm_num, C4_amended_distance_bounds (-150) (-59) (by norm_num)⟩

/-! ## Claims about the frame decoder -/

/-- C7: every buffer shorter than 25 bytes is rejected outright with
the no-match result, and for buffers of at least 25 bytes on which
no structural candidate matches, the decoder hands over to the
byte-pattern fallback scan, which itself requires at least 21 bytes
(trivially satisfied); the embedding is total, so no panic can
occur. -/
theorem C7_short_buffer_rejected :
    (∀ (buf : List ℕ) (rssi : ℤ), buf.length < 25 → parseIBeaconData buf rssi = none) ∧
    (∀ (buf : List ℕ) (rssi : ℤ), 25 ≤ buf.length →
        iBeaconFormats.findSome? (tryFormat buf rssi) = none →
        parseIBeaconData buf rssi = fallbackScan buf rssi ∧ 21 ≤ buf.length) := by
  constructor
  · intro buf rssi h
    simp [parseIBeaconData, h]
  · intro buf rssi h hf
    refine ⟨?_, by omega⟩
    rw [parseIBeaconData, if_neg (Nat.not_lt.2 h), hf]

/-- C7 witness: a concrete 24-byte buffer is rejected. -/
theorem C7_witness :
    (List.replicate 24 0).length < 25 ∧ parseIBeaconData (List.replicate 24 0) (-50) = none :=
  ⟨by simp, C7_short_buffer_rejected.1 (List.replicate 24 0) (-50) (by simp)⟩

/-! ## Claims about the position history -/

lemma updateHistory_length (prev : List Position) (p : Position) :
    (updateHistory prev p).length = min prev.length 50 + 1 := by
  simp [updateHistory, lastN]
  omega

lemma updateHistory1Hz_length (prev : List Position) (p : Position) :
    (updateHistory1Hz prev p).length = min prev.length 49 + 1 := by
  simp [updateHistory1Hz, lastN]
  omega

lemma histAfter_length (n : ℕ) : (histAfter n).length = min n 51 := by
  induction n with
  | zero => simp [histAfter]
  | succ n ih =>
    rw [histAfter, updateHistory_length, ih]
    omega

/-- C9 counterexample: the useBLEScanner update keeps the last 50
previous positions and appends the new one, so after 51 updates from
an empty history the history holds 51 positions, violating the
at-most-50 bound. -/
theorem C9_counterexample :
    (histAfter 51).length = 51 ∧ ¬(histAfter 51).length ≤ 50 := by
  rw [histAfter_length]
  omega

/-- C9 amended: every useBLEScanner history update leaves at most 51
positions (the last 50 previous ones plus the new one), while the
1 Hz revision kept in trilateration.ts leaves at most 50. -/
theorem C9_amended_history_bound :
    (∀ (prev : List Position) (p : Position), (updateHistory prev p).length ≤ 51) ∧
    (∀ (prev : List Position) (p : Position), (updateHistory1Hz prev p).length ≤ 50) := by
  constructor
  · intro prev p
    rw [updateHistory_length]
    omega
  · intro prev p
    rw [updateHistory1Hz_length]
    omega

/-! ## Frame decoder round-trip lemmas -/

lemma getU8_lt (buf : List ℕ) (i : ℕ) : getU8 buf i < 256 :=
  Nat.mod_lt _ (by norm_num)

lemma getU8_mid (pre u post : List ℕ) (n : ℕ) (h1 : pre.length ≤ n)
    (h2 : n - pre.length < u.length) :
    getU8 (pre ++ (u ++ post)) n = u.getD (n - pre.length) 0 % 256 := by
  unfold getU8
  rw [List.getD_append_right pre _ _ _ h1, List.getD_append _ _ _ _ h2]

lemma getU8_post (pre u post : List ℕ) (n : ℕ) (h1 : pre.length + u.length ≤ n) :
    getU8 (pre ++ (u ++ post)) n = post.getD (n - pre.length - u.length) 0 % 256 := by
  unfold getU8
  rw [List.getD_append_right pre _ _ _ (by omega),
      List.getD_append_right u _ _ _ (by omega)]

lemma uuidStrAt_append (pre u post : List ℕ) (off : ℕ) (hoff : pre.length = off)
    (hu : 16 ≤ u.length) :
    uuidStrAt (pre ++ (u ++ post)) off = uuidStrAt u 0 := by
  unfold uuidStrAt
  have h : ∀ i ∈ List.range 16,
      hexByte (getU8 (pre ++ (u ++ post)) (off + i)) = hexByte (getU8 u (0 + i)) := by
    intro i hi
    rw [List.mem_range] at hi
    congr 1
    rw [Nat.zero_add]
    subst hoff
    rw [getU8_mid pre u post _ (by omega) (by omega)]
    unfold getU8
    congr 2
    omega
  rw [List.map_congr_left h]

lemma tryFormat_std (u : List ℕ) (hu : u.length = 16) (M m t : ℕ) (rssi : ℤ)
    (hM : M < 65536) (hm : m < 65536) (ht : t < 256) :
    tryFormat (buildStd u M m t) rssi
      ⟨"Standard Apple iBeacon", 0, 0x004C, 2, 0x02, 3, 0x15, 4⟩ =
      some ⟨canonUuid u, M, m, rssi, int8OfByte t⟩ := by
  have hb : buildStd u M m t =
      [0x4C, 0x00, 0x02, 0x15] ++ (u ++ [M / 256, M % 256, m / 256, m % 256, t]) := by
    simp [buildStd]
  have hlen : (buildStd u M m t).length = 25 := by simp [buildStd, hu]
  have h0 : getU8 (buildStd u M m t) 0 = 76 := by simp [getU8, buildStd]
  have h1 : getU8 (buildStd u M m t) 1 = 0 := by simp [getU8, buildStd]
  have h2 : getU8 (buildStd u M m t) 2 = 2 := by simp [getU8, buildStd]
  have h3 : getU8 (buildStd u M m t) 3 = 21 := by simp [getU8, buildStd]
  have huuid : uuidStrAt (buildStd u M m t) 4 = canonUuid u := by
    rw [hb, canonUuid]
    exact uuidStrAt_append _ _ _ 4 (by simp) (by omega)
  have hmaj : getU16 (buildStd u M m t) (4 + 16) false = M := by
    rw [hb, getU16]
    simp only [Bool.false_eq_true, if_false]
    rw [getU8_post _ _ _ _ (by simp [hu]), getU8_post _ _ _ _ (by simp [hu])]
    simp [hu]
    omega
  have hmin : getU16 (buildStd u M m t) (4 + 18) false = m := by
    rw [hb, getU16]
    simp only [Bool.false_eq_true, if_false]
    rw [getU8_post _ _ _ _ (by simp [hu]), getU8_post _ _ _ _ (by simp [hu])]
    simp [hu]
    omega
  have htx : getI8 (buildStd u M m t) (4 + 20) = int8OfByte t := by
    rw [hb, getI8]
    rw [getU8_post _ _ _ _ (by simp [hu])]
    simp [hu, int8OfByte, Nat.mod_eq_of_lt ht]
  rw [tryFormat]
  rw [if_neg (by rw [hlen]; norm_num)]
  rw [if_neg (by rw [getU16, getU16]; simp [h0, h1])]
  rw [if_neg (by simp [h2, h3])]
  rw [huuid, hmaj, hmin, htx]

lemma tryFormat_pre2_f1 (p0 p1 : ℕ) (u : List ℕ) (M m t : ℕ) (rssi : ℤ) :
    tryFormat (buildPre2 p0 p1 u M m t) rssi
      ⟨"Standard Apple iBeacon", 0, 0x004C, 2, 0x02, 3, 0x15, 4⟩ = none := by
  have h2 : getU8 (buildPre2 p0 p1 u M m t) 2 = 76 := by simp [getU8, buildPre2]
  rw [tryFormat]
  split
  · rfl
  split
  · rfl
  rw [if_pos]
  left
  rw [h2]
  norm_num

lemma tryFormat_pre2_f2 (p0 p1 : ℕ) (u : List ℕ) (M m t : ℕ) (rssi : ℤ) :
    tryFormat (buildPre2 p0 p1 u M m t) rssi
      ⟨"Big Endian Company ID", 0, 0x4C00, 2, 0x02, 3, 0x15, 4⟩ = none := by
  have h2 : getU8 (buildPre2 p0 p1 u M m t) 2 = 76 := by simp [getU8, buildPre2]
  rw [tryFormat]
  split
  · rfl
  split
  · rfl
  rw [if_pos]
  left
  rw [h2]
  norm_num

lemma tryFormat_pre2_f3 (p0 p1 : ℕ) (u : List ℕ) (hu : u.length = 16) (M m t : ℕ)
    (rssi : ℤ) (hM : M < 65536) (hm : m < 65536) (ht : t < 256) :
    tryFormat (buildPre2 p0 p1 u M m t) rssi
      ⟨"With 2-byte prefix", 2, 0x004C, 4, 0x02, 5, 0x15, 6⟩ =
      some ⟨canonUuid u, M, m, rssi, int8OfByte t⟩ := by
  have hb : buildPre2 p0 p1 u M m t =
      [p0, p1, 0x4C, 0x00, 0x02, 0x15] ++ (u ++ [M / 256, M % 256, m / 256, m % 256, t]) := by
    simp [buildPre2]
  have hlen : (buildPre2 p0 p1 u M m t).length = 27 := by simp [buildPre2, hu]
  have h2 : getU8 (buildPre2 p0 p1 u M m t) 2 = 76 := by simp [getU8, buildPre2]
  have h3 : getU8 (buildPre2 p0 p1 u M m t) 3 = 0 := by simp [getU8, buildPre2]
  have h4 : getU8 (buildPre2 p0 p1 u M m t) 4 = 2 := by simp [getU8, buildPre2]
  have h5 : getU8 (buildPre2 p0 p1 u M m t) 5 = 21 := by simp [getU8, buildPre2]
  have huuid : uuidStrAt (buildPre2 p0 p1 u M m t) 6 = canonUuid u := by
    rw [hb, canonUuid]
    exact uuidStrAt_append _ _ _ 6 (by simp) (by omega)
  have hmaj : getU16 (buildPre2 p0 p1 u M m t) (6 + 16) false = M := by
    rw [hb, getU16]
    simp only [Bool.false_eq_true, if_false]
    rw [getU8_post _ _ _ _ (by simp [hu]), getU8_post _ _ _ _ (by simp [hu])]
    simp [hu]
    omega
  have hmin : getU16 (buildPre2 p0 p1 u M m t) (6 + 18) false = m := by
    rw [hb, getU16]
    simp only [Bool.false_eq_true, if_false]
    rw [getU8_post _ _ _ _ (by simp [hu]), getU8_post _ _ _ _ (by simp [hu])]
    simp [hu]
    omega
  have htx : getI8 (buildPre2 p0 p1 u M m t) (6 + 20) = int8OfByte t := by
    rw [hb, getI8]
    rw [getU8_post _ _ _ _ (by simp [hu])]
    simp [hu, int8OfByte, Nat.mod_eq_of_lt ht]
  rw [tryFormat]
  rw [if_neg (by rw [hlen]; norm_num)]
  rw [if_neg (by rw [getU16, getU16]; simp [h2, h3])]
  rw [if_neg (by simp [h4, h5])]
  rw [huuid, hmaj, hmin, htx]

lemma parse_buildStd (u : List ℕ) (hu : u.length = 16) (M m t : ℕ) (rssi : ℤ)
    (hM : M < 65536) (hm : m < 65536) (ht : t < 256) :
    parseIBeaconData (buildStd u M m t) rssi =
      some ⟨canonUuid u, M, m, rssi, int8OfByte t⟩ := by
  have hlen : (buildStd u M m t).length = 25 := by simp [buildStd, hu]
  have hfs : iBeaconFormats.findSome? (tryFormat (buildStd u M m t) rssi) =
      some ⟨canonUuid u, M, m, rssi, int8OfByte t⟩ := by
    rw [iBeaconFormats]
    simp [List.findSome?_cons, tryFormat_std u hu M m t rssi hM hm ht]
  rw [parseIBeaconData, if_neg (by rw [hlen]; norm_num), hfs]

lemma parse_buildPre2 (p0 p1 : ℕ) (u : List ℕ) (hu : u.length = 16) (M m t : ℕ)
    (rssi : ℤ) (hM : M < 65536) (hm : m < 65536) (ht : t < 256) :
    parseIBeaconData (buildPre2 p0 p1 u M m t) rssi =
      some ⟨canonUuid u, M, m, rssi, int8OfByte t⟩ := by
  have hlen : (buildPre2 p0 p1 u M m t).length = 27 := by simp [buildPre2, hu]
  have hfs : iBeaconFormats.findSome? (tryFormat (buildPre2 p0 p1 u M m t) rssi) =
      some ⟨canonUuid u, M, m, rssi, int8OfByte t⟩ := by
    rw [iBeaconFormats]
    simp [List.findSome?_cons, tryFormat_pre2_f1 p0 p1 u M m t rssi,
      tryFormat_pre2_f2 p0 p1 u M m t rssi,
      tryFormat_pre2_f3 p0 p1 u hu M m t rssi hM hm ht]
  rw [parseIBeaconData, if_neg (by rw [hlen]; norm_num), hfs]

lemma parse_buildHeadless (u : List ℕ) (hu : u.length = 16) (M m t : ℕ) (rssi : ℤ) :
    parseIBeaconData (buildHeadless u M m t) rssi = none := by
  have hlen : (buildHeadless u M m t).length = 21 := by simp [buildHeadless, hu]
  rw [parseIBeaconData, if_pos (by rw [hlen]; norm_num)]

/-! ## Shape of the serialized identity -/

def isLowerHexStr (s : String) : Prop := ∀ c ∈ s.data, c ∈ ("0123456789abcdef").data

lemma hexByte_length (b : ℕ) : (hexByte b).length = 2 := rfl

lemma isLowerHexStr_empty : isLowerHexStr "" := by
  intro c hc
  exact absurd hc (by simp)

lemma isLowerHexStr_append (a b : String) (ha : isLowerHexStr a) (hb : isLowerHexStr b) :
    isLowerHexStr (a ++ b) := by
  intro c hc
  rw [String.data_append] at hc
  rcases List.mem_append.1 hc with h | h
  exacts [ha c h, hb c h]

lemma hexByte_lowerhex (b : ℕ) (hb : b < 256) : isLowerHexStr (hexByte b) := by
  have h16 : ∀ n < 16, Nat.digitChar n ∈ ("0123456789abcdef").data := by decide
  intro c hc
  have hc2 : c = Nat.digitChar (b / 16) ∨ c = Nat.digitChar (b % 16) := by
    simpa [hexByte] using hc
  rcases hc2 with rfl | rfl
  · exact h16 _ (by omega)
  · exact h16 _ (by omega)

/-- The canonical identity serialization always has the hyphenated
lowercase 8-4-4-4-12 hex shape. -/
lemma canonUuid_shape (u : List ℕ) :
    ∃ g1 g2 g3 g4 g5 : String,
      g1.length = 8 ∧ g2.length = 4 ∧ g3.length = 4 ∧ g4.length = 4 ∧ g5.length = 12 ∧
      isLowerHexStr g1 ∧ isLowerHexStr g2 ∧ isLowerHexStr g3 ∧ isLowerHexStr g4 ∧
      isLowerHexStr g5 ∧
      canonUuid u = g1 ++ "-" ++ g2 ++ "-" ++ g3 ++ "-" ++ g4 ++ "-" ++ g5 := by
  refine ⟨String.join [hexByte (getU8 u 0), hexByte (getU8 u 1), hexByte (getU8 u 2),
      hexByte (getU8 u 3)],
    String.join [hexByte (getU8 u 4), hexByte (getU8 u 5)],
    String.join [hexByte (getU8 u 6), hexByte (getU8 u 7)],
    String.join [hexByte (getU8 u 8), hexByte (getU8 u 9)],
    String.join [hexByte (getU8 u 10), hexByte (getU8 u 11), hexByte (getU8 u 12),
      hexByte (getU8 u 13), hexByte (getU8 u 14), hexByte (getU8 u 15)],
    ?_, ?_, ?_, ?_, ?_, ?_, ?_, ?_, ?_, ?_, ?_⟩
  · simp [String.join, String.length_append, hexByte_length]
  · simp [String.join, String.length_append, hexByte_length]
  · simp [String.join, String.length_append, hexByte_length]
  · simp [String.join, String.length_append, hexByte_length]
  · simp [String.join, String.length_append, hexByte_length]
  · show isLowerHexStr ("" ++ _ ++ _ ++ _ ++ _)
    repeat' apply isLowerHexStr_append
    all_goals first
      | exact isLowerHexStr_empty
      | exact hexByte_lowerhex _ (getU8_lt u _)
  · show isLowerHexStr ("" ++ _ ++ _)
    repeat' apply isLowerHexStr_append
    all_goals first
      | exact isLowerHexStr_empty
      | exact hexByte_lowerhex _ (getU8_lt u _)
  · show isLowerHexStr ("" ++ _ ++ _)
    repeat' apply isLowerHexStr_append
    all_goals first
      | exact isLowerHexStr_empty
      | exact hexByte_lowerhex _ (getU8_lt u _)
  · show isLowerHexStr ("" ++ _ ++ _)
    repeat' apply isLowerHexStr_append
    all_goals first
      | exact isLowerHexStr_empty
      | exact hexByte_lowerhex _ (getU8_lt u _)
  · show isLowerHexStr ("" ++ _ ++ _ ++ _ ++ _ ++ _ ++ _)
    repeat' apply isLowerHexStr_append
    all_goals first
      | exact isLowerHexStr_empty
      | exact hexByte_lowerhex _ (getU8_lt u _)
  · rfl

/-- A 16-byte identity matching the configured fallback signature. -/
def sigUuidBytes : List ℕ :=
  [0xab, 0x90, 0x78, 0x56, 0x34, 0x12, 0x34, 0x12, 0x34, 0x12, 0x34, 0x12, 0x34, 0x12,
   0x34, 0x12]

/-- C3 counterexample: a headerless buffer (identity at offset 0,
21 bytes) does not round-trip: it is rejected by the 25-byte minimum
even when the identity matches the fallback signature. -/
theorem C3_counterexample :
    (buildHeadless sigUuidBytes 4660 22136 195).length = 21 ∧
    parseIBeaconData (buildHeadless sigUuidBytes 4660 22136 195) (-50) = none := by
  refine ⟨by decide, parse_buildHeadless sigUuidBytes (by decide) 4660 22136 195 (-50)⟩

/-- C3 amended: the standard layout and the 2-byte-prefix layout
round-trip exactly for every identity, major, minor and tx power,
with the identity serialized in the canonical form, which always has
the lowercase hyphenated 8-4-4-4-12 hex shape. The headerless layout
does not round-trip: its 21-byte buffer is always rejected by the
25-byte minimum; only when padded to at least 25 bytes and carrying
an identity whose hex serialization contains one of the configured
signatures does the fallback scan recover the fields, as in the
concrete padded instance below. -/
theorem C3_amended_roundtrip :
    (∀ (u : List ℕ) (M m t : ℕ) (rssi : ℤ), u.length = 16 → M < 65536 → m < 65536 →
        t < 256 →
        parseIBeaconData (buildStd u M m t) rssi =
          some ⟨canonUuid u, M, m, rssi, int8OfByte t⟩) ∧
    (∀ (p0 p1 : ℕ) (u : List ℕ) (M m t : ℕ) (rssi : ℤ), u.length = 16 → M < 65536 →
        m < 65536 → t < 256 →
        parseIBeaconData (buildPre2 p0 p1 u M m t) rssi =
          some ⟨canonUuid u, M, m, rssi, int8OfByte t⟩) ∧
    (∀ (u : List ℕ) (M m t : ℕ) (rssi : ℤ), u.length = 16 →
        parseIBeaconData (buildHeadless u M m t) rssi = none) ∧
    (parseIBeaconData (buildHeadless sigUuidBytes 4660 22136 195 ++ [0, 0, 0, 0]) (-50) =
      some ⟨"ab907856-3412-3412-3412-341234123412", 4660, 22136, -50, -61⟩) ∧
    (∀ u : List ℕ, ∃ g1 g2 g3 g4 g5 : String,
      g1.length = 8 ∧ g2.length = 4 ∧ g3.length = 4 ∧ g4.length = 4 ∧ g5.length = 12 ∧
      isLowerHexStr g1 ∧ isLowerHexStr g2 ∧ isLowerHexStr g3 ∧ isLowerHexStr g4 ∧
      isLowerHexStr g5 ∧
      canonUuid u = g1 ++ "-" ++ g2 ++ "-" ++ g3 ++ "-" ++ g4 ++ "-" ++ g5) := by
  refine ⟨?_, ?_, ?_, ?_, canonUuid_shape⟩
  · intro u M m t rssi hu hM hm ht
    exact parse_buildStd u hu M m t rssi hM hm ht
  · intro p0 p1 u M m t rssi hu hM hm ht
    exact parse_buildPre2 p0 p1 u hu M m t rssi hM hm ht
  · intro u M m t rssi hu
    exact parse_buildHeadless u hu M m t rssi
  · decide

/-- C3 witness: a concrete standard-layout buffer round-trips to the
expected serialized identity and field values. -/
theorem C3_witness :
    parseIBeaconData (buildStd sigUuidBytes 4660 22136 195) (-50) =
      some ⟨"ab907856-3412-3412-3412-341234123412", 4660, 22136, -50, -61⟩ := by
  rw [C3_amended_roundtrip.1 sigUuidBytes 4660 22136 195 (-50) (by decide) (by decide)
      (by decide) (by decide)]
  decide

/-! ## Kalman filter lemmas

With the default parameters the error covariance follows
p -> (1 - (p + Q)/(p + Q + R)) * (p + Q) with Q = 0.0001 and
R = 0.01, and the estimation error contracts by the factor
1 - gain = R/(p + Q + R). -/

noncomputable def kfNext (p : ℝ) : ℝ := (1 - (p + 0.0001) / (p + 0.0001 + 0.01)) * (p + 0.0001)

noncomputable def kfGain (p : ℝ) : ℝ := (p + 0.0001) / (p + 0.0001 + 0.01)

lemma kfIter_Q (c : ℝ) (n : ℕ) : (kfIter c n).Q = 0.0001 := by
  induction n with
  | zero => rfl
  | succ n ih => simpa [kfIter, KalmanFilter.filter] using ih

lemma kfIter_R (c : ℝ) (n : ℕ) : (kfIter c n).R = 0.01 := by
  induction n with
  | zero => rfl
  | succ n ih => simpa [kfIter, KalmanFilter.filter] using ih

lemma kfIter_P_succ (c : ℝ) (n : ℕ) : (kfIter c (n + 1)).P = kfNext ((kfIter c n).P) := by
  show ((kfIter c n).filter c).P = _
  simp only [KalmanFilter.filter, kfNext, kfIter_Q, kfIter_R]

lemma kfIter_X_succ (c : ℝ) (n : ℕ) :
    c - (kfIter c (n + 1)).X = (1 - kfGain ((kfIter c n).P)) * (c - (kfIter c n).X) := by
  show c - ((kfIter c n).filter c).X = _
  simp only [KalmanFilter.filter, kfGain, kfIter_Q, kfIter_R]
  ring

lemma kfNext_ge (p : ℝ) (hp : 0.00094 ≤ p) : 0.00094 ≤ kfNext p := by
  have hpos : (0 : ℝ) < p + 0.0001 + 0.01 := by linarith
  have e : kfNext p = (0.01 * (p + 0.0001)) / (p + 0.0001 + 0.01) := by
    rw [kfNext]
    field_simp
    try ring
  rw [e, le_div_iff hpos]
  linarith

lemma kfNext_mono (p p' : ℝ) (hp : 0 ≤ p) (hpp : p ≤ p') : kfNext p ≤ kfNext p' := by
  have h1 : (0 : ℝ) < p + 0.0001 + 0.01 := by linarith
  have h2 : (0 : ℝ) < p' + 0.0001 + 0.01 := by linarith
  have e1 : kfNext p = (0.01 * (p + 0.0001)) / (p + 0.0001 + 0.01) := by
    rw [kfNext]; field_simp; try ring
  have e2 : kfNext p' = (0.01 * (p' + 0.0001)) / (p' + 0.0001 + 0.01) := by
    rw [kfNext]; field_simp; try ring
  rw [e1, e2, div_le_div_iff h1 h2]
  nlinarith

lemma kfIter_P_ge (c : ℝ) (n : ℕ) : 0.00094 ≤ (kfIter c n).P := by
  induction n with
  | zero => norm_num [kfIter, KalmanFilter.init]
  | succ n ih =>
    rw [kfIter_P_succ]
    exact kfNext_ge _ ih

lemma kfIter_P_mono (c : ℝ) (n : ℕ) : (kfIter c (n + 1)).P ≤ (kfIter c n).P := by
  induction n with
  | zero =>
    rw [kfIter_P_succ]
    show kfNext (KalmanFilter.init.P) ≤ (KalmanFilter.init).P
    rw [kfNext]
    norm_num [KalmanFilter.init]
  | succ n ih =>
    have ih' : kfNext ((kfIter c n).P) ≤ (kfIter c n).P := by
      rw [kfIter_P_succ] at ih
      exact ih
    have hge : (0.00094 : ℝ) ≤ kfNext ((kfIter c n).P) := kfNext_ge _ (kfIter_P_ge c n)
    rw [kfIter_P_succ c (n + 1), kfIter_P_succ c n]
    exact kfNext_mono _ _ (by linarith) ih'

lemma kfGain_factor (p : ℝ) (hp : 0.00094 ≤ p) :
    0 ≤ 1 - kfGain p ∧ 1 - kfGain p ≤ 125 / 138 := by
  have hpos : (0 : ℝ) < p + 0.0001 + 0.01 := by linarith
  have e : 1 - kfGain p = 0.01 / (p + 0.0001 + 0.01) := by
    rw [kfGain]
    field_simp
  constructor
  · rw [e]
    positivity
  · rw [e, div_le_iff hpos]
    linarith

lemma kfIter_err_succ (c : ℝ) (n : ℕ) :
    |c - (kfIter c (n + 1)).X| ≤ (125 / 138) * |c - (kfIter c n).X| := by
  rw [kfIter_X_succ, abs_mul]
  have hb := kfGain_factor _ (kfIter_P_ge c n)
  have : |1 - kfGain ((kfIter c n).P)| ≤ 125 / 138 := by
    rw [abs_of_nonneg hb.1]
    exact hb.2
  exact mul_le_mul_of_nonneg_right this (abs_nonneg _) |>.trans_eq rfl

lemma kfIter_err_chain (c : ℝ) (k : ℕ) :
    |c - (kfIter c (k + 1)).X| ≤ (125 / 138) ^ k * |c - (kfIter c 1).X| := by
  induction k with
  | zero => simp
  | succ k ih =>
    calc |c - (kfIter c (k + 1 + 1)).X| ≤ (125 / 138) * |c - (kfIter c (k + 1)).X| :=
        kfIter_err_succ c (k + 1)
    _ ≤ (125 / 138) * ((125 / 138) ^ k * |c - (kfIter c 1).X|) := by
        apply mul_le_mul_of_nonneg_left ih
        norm_num
    _ = (125 / 138) ^ (k + 1) * |c - (kfIter c 1).X| := by ring

lemma kfIter_err_one (c : ℝ) : |c - (kfIter c 1).X| = (100 / 10101) * |c| := by
  have h := kfIter_X_succ c 0
  have h0 : (kfIter c 0).X = 0 := rfl
  have hP : (kfIter c 0).P = 1.0 := rfl
  rw [h0, hP] at h
  have hg : 1 - kfGain 1.0 = 100 / 10101 := by
    rw [kfGain]
    norm_num
  rw [hg] at h
  rw [h, abs_mul, sub_zero, abs_of_nonneg (by norm_num : (0:ℝ) ≤ 100 / 10101)]

lemma kfIter_err_zero (c : ℝ) : |c - (kfIter c 0).X| = |c| := by
  have h0 : (kfIter c 0).X = 0 := rfl
  rw [h0, sub_zero]

lemma kfIter_err_pow (c : ℝ) (n : ℕ) : |c - (kfIter c n).X| ≤ (125 / 138) ^ n * |c| := by
  induction n with
  | zero => rw [kfIter_err_zero]; simp
  | succ n ih =>
    calc |c - (kfIter c (n + 1)).X| ≤ (125 / 138) * |c - (kfIter c n).X| :=
        kfIter_err_succ c n
    _ ≤ (125 / 138) * ((125 / 138) ^ n * |c|) := by
        apply mul_le_mul_of_nonneg_left ih
        norm_num
    _ = (125 / 138) ^ (n + 1) * |c| := by ring

/-- C5: feeding the same constant measurement into a freshly
constructed KalmanFilter yields a monotonically non-increasing
errorCovariance sequence; after 50 iterations the estimate is within
0.01 of the constant for every constant of magnitude at most 100
(covering the dBm signal range), and for every constant whatsoever
the estimate is within 0.01 after enough iterations. -/
theorem C5_kalman_convergence :
    (∀ (c : ℝ) (n : ℕ), (kfIter c (n + 1)).P ≤ (kfIter c n).P) ∧
    (∀ c : ℝ, |c| ≤ 100 → |(kfIter c 50).X - c| ≤ 0.01) ∧
    (∀ c : ℝ, ∃ N : ℕ, ∀ n : ℕ, N ≤ n → |(kfIter c n).X - c| ≤ 0.01) := by
  refine ⟨kfIter_P_mono, ?_, ?_⟩
  · intro c hc
    rw [abs_sub_comm]
    have h1 := kfIter_err_chain c 49
    rw [kfIter_err_one c] at h1
    have h3 : |c - (kfIter c 50).X| ≤ (125 / 138) ^ 49 * (100 / 10101 * 100) := by
      refine h1.trans ?_
      apply mul_le_mul_of_nonneg_left _ (by positivity)
      exact mul_le_mul_of_nonneg_left hc (by norm_num)
    refine h3.trans ?_
    norm_num
  · intro c
    rcases eq_or_ne c 0 with rfl | hc
    · refine ⟨0, fun n _ => ?_⟩
      rw [abs_sub_comm]
      have h := kfIter_err_pow 0 n
      simp only [abs_zero, mul_zero] at h
      exact h.trans (by norm_num)
    · have hc' : 0 < |c| := abs_pos.2 hc
      obtain ⟨N, hN⟩ := exists_pow_lt_of_lt_one (x := 0.01 / |c|) (y := (125 : ℝ) / 138)
        (by positivity) (by norm_num)
      refine ⟨N, fun n hn => ?_⟩
      rw [abs_sub_comm]
      have h2 : ((125 : ℝ) / 138) ^ n ≤ ((125 : ℝ) / 138) ^ N :=
        pow_le_pow_of_le_one (by norm_num) (by norm_num) hn
      calc |c - (kfIter c n).X| ≤ (125 / 138) ^ n * |c| := kfIter_err_pow c n
        _ ≤ (125 / 138) ^ N * |c| := mul_le_mul_of_nonneg_right h2 (abs_nonneg c)
        _ ≤ 0.01 / |c| * |c| := mul_le_mul_of_nonneg_right (le_of_lt hN) (abs_nonneg c)
        _ = 0.01 := div_mul_cancel₀ _ hc'.ne'

/-- C5 witness: the hypotheses of the 50-iteration bound hold at the
concrete constant 100. -/
theorem C5_witness : |(100 : ℝ)| ≤ 100 ∧ |(kfIter 100 50).X - 100| ≤ 0.01 :=
  ⟨by norm_num, C5_kalman_convergence.2.1 100 (by norm_num)⟩
